import Mathlib

/-!
# Hostel-Inventory front end — shallow embedding

A shallow embedding of the state-management logic of the Hostel-Inventory
React front end, with theorems checking the natural-language specification
against it.

Modelling conventions:

* JavaScript values flowing through `response.data` are modelled by `JsVal`
  (a JSON-like value type extended with `undefined`).  Property access
  `x.f` (and the optional chain `x?.f`) is `JsVal.getField`, which yields
  `JsVal.undefined` on absent fields and non-object receivers, as in JS.
* Every asynchronous handler is embedded as a pure function from the
  controller state plus the outcome of each awaited (or fired) network
  call to the new controller state and the list of observable effects
  (API calls issued, navigations, toasts, confirm dialogs, console logs),
  in program order.
* React `useState` setters become functional record updates; the `navigate`
  function from react-router becomes an `Effect.navigate`; `setTimeout`
  navigation becomes `Effect.navigateDelayed`.
* String coercions performed by JS when a non-string server error payload
  is concatenated into a toast message are approximated by
  `JsVal.displayString`; no claim depends on those texts.
-/

mutual

/-- A JavaScript value as it appears in API response bodies: JSON values
plus `undefined`.  Arrays and objects use the mutually defined spine types
so that decidable equality can be derived. -/
inductive JsVal where
  | null
  | undefined
  | bool (b : Bool)
  | num (n : Int)
  | str (s : String)
  | arr (elems : JsArr)
  | obj (fields : JsObj)
deriving DecidableEq, Repr

/-- Spine of a JavaScript array value. -/
inductive JsArr where
  | nil
  | cons (hd : JsVal) (tl : JsArr)
deriving DecidableEq, Repr

/-- Spine of a JavaScript object value: ordered key/value fields. -/
inductive JsObj where
  | nil
  | cons (key : String) (val : JsVal) (tl : JsObj)
deriving DecidableEq, Repr

end

/-- The elements of an array value as a Lean list. -/
def JsArr.toList : JsArr → List JsVal
  | .nil => []
  | .cons hd tl => hd :: tl.toList

/-- First field of an object with the given key, as in a parsed JSON
object (duplicate keys do not survive parsing). -/
def JsObj.lookup : JsObj → String → Option JsVal
  | .nil, _ => none
  | .cons k v tl, key => if k = key then some v else tl.lookup key

/-- `Array.isArray x`. -/
def JsVal.isArr : JsVal → Bool
  | .arr _ => true
  | _ => false

/-- Property access `x.f` / optional chain `x?.f`: the field's value on an
object that has it, `undefined` otherwise (non-object receivers included;
the TypeError JS raises for a `null`/`undefined` receiver without `?.` is
not modelled — every access embedded here is either optionally chained or
performed on a server-supplied object). -/
def JsVal.getField : JsVal → String → JsVal
  | .obj fields, key =>
      match fields.lookup key with
      | some v => v
      | none => .undefined
  | _, _ => .undefined

/-- JavaScript truthiness of a value (`NaN` is not modelled). -/
def JsVal.truthy : JsVal → Bool
  | .null => false
  | .undefined => false
  | .bool b => b
  | .num n => n != 0
  | .str s => s != ""
  | .arr _ => true
  | .obj _ => true

/-- String coercion used when a value is concatenated into a message.
Array/object rendering is approximated; no theorem depends on it. -/
def JsVal.displayString : JsVal → String
  | .null => "null"
  | .undefined => "undefined"
  | .bool b => if b then "true" else "false"
  | .num n => toString n
  | .str s => s
  | .arr _ => ""
  | .obj _ => "[object Object]"

/-- Leading whitespace characters removed from a character list. -/
def dropLeadingWs : List Char → List Char
  | [] => []
  | c :: cs => if c.isWhitespace then dropLeadingWs cs else c :: cs

/-- Executable model of `String.prototype.trim()`: whitespace removed from
both ends (defined structurally so that concrete inputs evaluate inside
the kernel). -/
def jsTrim (s : String) : String :=
  ⟨List.reverse (dropLeadingWs (List.reverse (dropLeadingWs s.data)))⟩

/-- The `response` object attached to an axios error when the server
answered: an HTTP status and the parsed body. -/
structure ErrResp where
  status : Nat
  data : JsVal
deriving DecidableEq, Repr

/-- An error thrown by a transport call (`err` in the catch blocks).
`response` is `none` for network-level failures, mirroring
`err.response` being `undefined`. -/
structure FetchError where
  response : Option ErrResp
deriving DecidableEq, Repr

/-- `err.response?.status === 401 || err.response?.status === 403`. -/
def FetchError.isAuthFailure (e : FetchError) : Bool :=
  match e.response with
  | some r => r.status = 401 || r.status = 403
  | none => false

/-- `err.response?.data?.error || fallback`: the server-supplied error
message when present and truthy, the fallback otherwise. -/
def FetchError.errorOr (e : FetchError) (fallback : String) : String :=
  match e.response with
  | some r =>
      let v := r.data.getField "error"
      if v.truthy then v.displayString else fallback
  | none => fallback

/-- Outcome of one awaited transport call: `ok data` carries
`response.data`, `err` carries the thrown error. -/
inductive ApiResult where
  | ok (data : JsVal)
  | err (e : FetchError)
deriving DecidableEq, Repr

/-- Form state of the rooms controller (`formData` in `useRooms`). -/
structure RoomFormData where
  room_number : JsVal
  hostel_name : JsVal
  floor : JsVal
  capacity : JsVal
deriving DecidableEq, Repr

/-- Form state of the assets controller (`formData` in `useAssets`). -/
structure AssetFormData where
  name : JsVal
  asset_type : JsVal
  total_quantity : JsVal
  condition : JsVal
deriving DecidableEq, Repr

/-- One call into the transport wrapper (`services/api`), with the
arguments the handler passes. -/
inductive ApiCall where
  | getRooms
  | createRoom (body : RoomFormData)
  | updateRoom (id : JsVal) (body : RoomFormData)
  | deleteRoom (id : JsVal)
  | getAssets
  | createAsset (body : AssetFormData)
  | updateAsset (id : JsVal) (body : AssetFormData)
  | deleteAsset (id : JsVal)
  | getDamageReports
  | createDamageReport (room : String) (asset_type : String) (description : String)
  | deleteDamageReport (id : JsVal)
  | getDashboardSummary
  | getCurrentUser
  | listUsers
  | updateUser (id : JsVal) (body : JsVal)
  | deleteUser (id : JsVal)
  | requestPasswordReset (email : String)
  | verifyResetCode (email : String) (code : String)
  | resetPasswordWithCode (email : String) (code : String) (newPassword : String)
deriving DecidableEq, Repr

/-- An externally observable action performed by a handler, in program
order. -/
inductive Effect where
  | apiCall (c : ApiCall)
  | navigate (path : String)
  | navigateDelayed (path : String) (delayMs : Nat)
  | toast (message : String) (kind : String)
  | consoleError (context : String)
  | confirmDialog (message : String)
deriving DecidableEq, Repr

namespace UseRooms

/-- State triad of the rooms controller (`useRooms`).  `rooms` is kept as
a raw `JsVal` because `setRooms` receives whatever the guarded expression
produces. -/
structure State where
  rooms : JsVal
  loading : Bool
  showForm : Bool
  editingRoom : Option JsVal
  formData : RoomFormData
deriving DecidableEq, Repr

/-- The default form values of `useRooms`: empty strings and capacity 2. -/
def defaultFormData : RoomFormData :=
  { room_number := .str "", hostel_name := .str "", floor := .str "", capacity := .num 2 }

/-- Initial `useState` values of `useRooms`. -/
def initialState : State :=
  { rooms := .arr .nil, loading := true, showForm := false, editingRoom := none
    formData := defaultFormData }

/-- `fetchRooms` of `useRooms.js`: stores the body if it is an array and
`[]` otherwise; on error stores `[]`, logs, and navigates to `/signin`
when the status is 401/403; always ends with `loading = false`. -/
def fetchRooms (s : State) (res : ApiResult) : State × List Effect :=
  match res with
  | .ok data =>
      ({ s with rooms := if data.isArr then data else .arr .nil, loading := false },
       [.apiCall .getRooms])
  | .err e =>
      ({ s with rooms := .arr .nil, loading := false },
       [.apiCall .getRooms, .consoleError "Error fetching rooms:"] ++
         (if e.isAuthFailure then [.navigate "/signin"] else []))

/-- `handleSubmit` of `useRooms.js`.  `submitRes` is the outcome of the
update/create call, `reloadRes` the outcome of the `fetchRooms` reload
fired on success. -/
def handleSubmit (s : State) (submitRes : ApiResult) (reloadRes : ApiResult) :
    State × List Effect :=
  let call : ApiCall :=
    match s.editingRoom with
    | some room => .updateRoom (room.getField "id") s.formData
    | none => .createRoom s.formData
  let okMsg : String :=
    match s.editingRoom with
    | some _ => "Room updated successfully!"
    | none => "Room created successfully!"
  match submitRes with
  | .ok _ =>
      let s1 : State :=
        { s with showForm := false, editingRoom := none, formData := defaultFormData }
      let reloaded := fetchRooms s1 reloadRes
      (reloaded.1, [.apiCall call, .toast okMsg "success"] ++ reloaded.2)
  | .err e =>
      (s, [.apiCall call,
           .toast ("Error saving room: " ++ e.errorOr "Unknown error") "error"])

/-- `handleEdit` of `useRooms.js`: copies the room's fields into the form
(`floor || ''`), records the editing target, shows the form. -/
def handleEdit (s : State) (room : JsVal) : State :=
  { s with
    editingRoom := some room
    formData :=
      { room_number := room.getField "room_number"
        hostel_name := room.getField "hostel_name"
        floor := if (room.getField "floor").truthy then room.getField "floor" else .str ""
        capacity := room.getField "capacity" }
    showForm := true }

/-- `handleDelete` of `useRooms.js`.  `confirmed` is what `window.confirm`
returned; the delete call and reload happen only when it is `true`. -/
def handleDelete (s : State) (id : JsVal) (confirmed : Bool)
    (delRes : ApiResult) (reloadRes : ApiResult) : State × List Effect :=
  if confirmed then
    match delRes with
    | .ok _ =>
        let reloaded := fetchRooms s reloadRes
        (reloaded.1,
         [.confirmDialog "Are you sure you want to delete this room?",
          .apiCall (.deleteRoom id),
          .toast "Room deleted successfully!" "success"] ++ reloaded.2)
    | .err _ =>
        (s, [.confirmDialog "Are you sure you want to delete this room?",
             .apiCall (.deleteRoom id),
             .toast "Error deleting room" "error"])
  else
    (s, [.confirmDialog "Are you sure you want to delete this room?"])

/-- `handleCancel` of `useRooms.js`: hide form, clear editing target,
restore default form values; nothing else. -/
def handleCancel (s : State) : State × List Effect :=
  ({ s with showForm := false, editingRoom := none, formData := defaultFormData }, [])

end UseRooms

namespace UseAssets

/-- State triad of the assets controller (`useAssets`). -/
structure State where
  assets : JsVal
  loading : Bool
  showForm : Bool
  editingAsset : Option JsVal
  formData : AssetFormData
deriving DecidableEq, Repr

/-- The default form values of `useAssets`: empty name, type `Bed`,
quantity 1, condition `Good`. -/
def defaultFormData : AssetFormData :=
  { name := .str "", asset_type := .str "Bed", total_quantity := .num 1
    condition := .str "Good" }

/-- Initial `useState` values of `useAssets`. -/
def initialState : State :=
  { assets := .arr .nil, loading := true, showForm := false, editingAsset := none
    formData := defaultFormData }

/-- `fetchAssets` of `useAssets.js`.  `hasToast` records whether the
optional `showToast` callback was passed (call sites inside handlers pass
it, the mount effect does not). -/
def fetchAssets (s : State) (hasToast : Bool) (res : ApiResult) : State × List Effect :=
  match res with
  | .ok data =>
      ({ s with assets := if data.isArr then data else .arr .nil, loading := false },
       [.apiCall .getAssets])
  | .err e =>
      ({ s with assets := .arr .nil, loading := false },
       [.apiCall .getAssets, .consoleError "Error fetching assets:"] ++
         (if e.isAuthFailure then [.navigate "/signin"]
          else if hasToast then [.toast "Failed to load assets" "error"] else []))

/-- `handleSubmit` of `useAssets.js`. -/
def handleSubmit (s : State) (submitRes : ApiResult) (reloadRes : ApiResult) :
    State × List Effect :=
  let call : ApiCall :=
    match s.editingAsset with
    | some asset => .updateAsset (asset.getField "id") s.formData
    | none => .createAsset s.formData
  let okMsg : String :=
    match s.editingAsset with
    | some _ => "Asset updated successfully!"
    | none => "Asset created successfully!"
  match submitRes with
  | .ok _ =>
      let s1 : State :=
        { s with showForm := false, editingAsset := none, formData := defaultFormData }
      let reloaded := fetchAssets s1 true reloadRes
      (reloaded.1, [.apiCall call, .toast okMsg "success"] ++ reloaded.2)
  | .err e =>
      (s, [.apiCall call, .toast (e.errorOr "Error saving asset") "error"])

/-- `handleDelete` of `useAssets.js`. -/
def handleDelete (s : State) (id : JsVal) (confirmed : Bool)
    (delRes : ApiResult) (reloadRes : ApiResult) : State × List Effect :=
  if confirmed then
    match delRes with
    | .ok _ =>
        let reloaded := fetchAssets s true reloadRes
        (reloaded.1,
         [.confirmDialog "Are you sure you want to delete this asset?",
          .apiCall (.deleteAsset id),
          .toast "Asset deleted successfully!" "success"] ++ reloaded.2)
    | .err _ =>
        (s, [.confirmDialog "Are you sure you want to delete this asset?",
             .apiCall (.deleteAsset id),
             .toast "Error deleting asset" "error"])
  else
    (s, [.confirmDialog "Are you sure you want to delete this asset?"])

/-- `handleCancel` of `useAssets.js`. -/
def handleCancel (s : State) : State × List Effect :=
  ({ s with showForm := false, editingAsset := none, formData := defaultFormData }, [])

end UseAssets

namespace DamageTracking

/-- State of the damage-tracking controller (`useDamageTracking` in
`DamageTracking.js`).  Note it has no form-visibility flag and no editing
target: the report form is always rendered and only creates. -/
structure State where
  rooms : JsVal
  damageReports : JsVal
  selectedRoom : String
  assetType : String
  description : String
  loading : Bool
deriving DecidableEq, Repr

/-- Initial `useState` values of `useDamageTracking`. -/
def initialState : State :=
  { rooms := .arr .nil, damageReports := .arr .nil, selectedRoom := ""
    assetType := "Bed", description := "", loading := true }

/-- `fetchRooms` of `useDamageTracking`: same shape as the rooms hook,
including the 401/403 redirect. -/
def fetchRooms (s : State) (res : ApiResult) : State × List Effect :=
  match res with
  | .ok data =>
      ({ s with rooms := if data.isArr then data else .arr .nil, loading := false },
       [.apiCall .getRooms])
  | .err e =>
      ({ s with rooms := .arr .nil, loading := false },
       [.apiCall .getRooms, .consoleError "Error fetching rooms:"] ++
         (if e.isAuthFailure then [.navigate "/signin"] else []))

/-- `fetchDamageReports` of `useDamageTracking`: stores an array or `[]`;
its catch block only logs — it never navigates, whatever the status. -/
def fetchDamageReports (s : State) (res : ApiResult) : State × List Effect :=
  match res with
  | .ok data =>
      ({ s with damageReports := if data.isArr then data else .arr .nil },
       [.apiCall .getDamageReports])
  | .err _ =>
      ({ s with damageReports := .arr .nil },
       [.apiCall .getDamageReports, .consoleError "Error fetching damage reports:"])

/-- `handleSubmit` of `useDamageTracking`: validates room selection and a
non-empty trimmed description, creates the report, then clears only the
description (room and asset type are deliberately kept) and reloads the
report list. -/
def handleSubmit (s : State) (createRes : ApiResult) (reloadRes : ApiResult) :
    State × List Effect :=
  if s.selectedRoom = "" then
    (s, [.toast "Please select a room" "error"])
  else if jsTrim s.description = "" then
    (s, [.toast "Please enter damage description" "error"])
  else
    match createRes with
    | .ok _ =>
        let s1 : State := { s with description := "" }
        let reloaded := fetchDamageReports s1 reloadRes
        (reloaded.1,
         [.apiCall (.createDamageReport s.selectedRoom s.assetType (jsTrim s.description)),
          .toast "Damage report added successfully!" "success"] ++ reloaded.2)
    | .err e =>
        (s, [.apiCall (.createDamageReport s.selectedRoom s.assetType (jsTrim s.description)),
             .toast (e.errorOr "Failed to add damage report") "error",
             .consoleError "Error:"])

/-- `handleDelete` of `useDamageTracking`: detail-bearing confirm dialog,
then delete and reload only when confirmed. -/
def handleDelete (s : State) (reportId : JsVal) (roomNumber : String)
    (assetTy : String) (confirmed : Bool) (delRes : ApiResult)
    (reloadRes : ApiResult) : State × List Effect :=
  let msg := "Delete damage report for " ++ assetTy ++ " in Room " ++ roomNumber ++ "?"
  if confirmed then
    match delRes with
    | .ok _ =>
        let reloaded := fetchDamageReports s reloadRes
        (reloaded.1,
         [.confirmDialog msg, .apiCall (.deleteDamageReport reportId),
          .toast "Damage report deleted successfully!" "success"] ++ reloaded.2)
    | .err _ =>
        (s, [.confirmDialog msg, .apiCall (.deleteDamageReport reportId),
             .toast "Error deleting report" "error", .consoleError "Error:"])
  else
    (s, [.confirmDialog msg])

end DamageTracking

namespace Dashboard

/-- State of the dashboard page relevant to its fetches. -/
structure State where
  summary : JsVal
  user : Option JsVal
  loading : Bool
deriving DecidableEq, Repr

/-- `fetchDashboardData` of `Dashboard.js`: stores the summary; on error
logs and navigates to `/signin` when the status is 401/403. -/
def fetchDashboardData (s : State) (res : ApiResult) : State × List Effect :=
  match res with
  | .ok data =>
      ({ s with summary := data, loading := false }, [.apiCall .getDashboardSummary])
  | .err e =>
      ({ s with loading := false },
       [.apiCall .getDashboardSummary, .consoleError "Error fetching dashboard data:"] ++
         (if e.isAuthFailure then [.navigate "/signin"] else []))

/-- `fetchCurrentUser` of `Dashboard.js`: stores the identity; its catch
block only logs — no redirect on any status. -/
def fetchCurrentUser (s : State) (res : ApiResult) : State × List Effect :=
  match res with
  | .ok data => ({ s with user := some data }, [.apiCall .getCurrentUser])
  | .err _ => (s, [.apiCall .getCurrentUser, .consoleError "Error fetching user:"])

end Dashboard

namespace Profile

/-- State of the profile page relevant to its identity fetch. -/
structure State where
  user : Option JsVal
  phoneNumber : JsVal
  firstName : JsVal
  lastName : JsVal
  loading : Bool
deriving DecidableEq, Repr

/-- Initial `useState` values of the profile page. -/
def initialState : State :=
  { user := none, phoneNumber := .str "", firstName := .str "", lastName := .str ""
    loading := true }

/-- `fetchCurrentUser` of `Profile.js`: stores the identity and populates
the form fields (`field || ''` fallbacks); on error logs and navigates to
`/signin` when the status is 401/403; `finally` clears `loading`. -/
def fetchCurrentUser (s : State) (res : ApiResult) : State × List Effect :=
  match res with
  | .ok data =>
      ({ s with
          user := some data
          phoneNumber :=
            if (data.getField "phone_number").truthy then data.getField "phone_number"
            else .str ""
          firstName :=
            if (data.getField "first_name").truthy then data.getField "first_name"
            else .str ""
          lastName :=
            if (data.getField "last_name").truthy then data.getField "last_name"
            else .str ""
          loading := false },
       [.apiCall .getCurrentUser])
  | .err e =>
      ({ s with loading := false },
       [.apiCall .getCurrentUser, .consoleError "Error fetching user:"] ++
         (if e.isAuthFailure then [.navigate "/signin"] else []))

end Profile

namespace UserManagement

/-- State of the user-management page. -/
structure State where
  user : Option JsVal
  loading : Bool
  allUsers : JsVal
deriving DecidableEq, Repr

/-- Initial `useState` values of `UserManagement`. -/
def initialState : State :=
  { user := none, loading := true, allUsers := .arr .nil }

/-- `fetchAllUsers` of the user-management page: stores `response.data`
unguarded; its catch block only logs. -/
def fetchAllUsers (s : State) (res : ApiResult) : State × List Effect :=
  match res with
  | .ok data => ({ s with allUsers := data }, [.apiCall .listUsers])
  | .err _ => (s, [.apiCall .listUsers, .consoleError "Error fetching users:"])

/-- `fetchCurrentUser` of the user-management page: stores the identity;
a non-Warden role navigates to `/dashboard` and returns before the user
list is requested; a Warden role triggers `fetchAllUsers` (outcome
`listRes`); errors log and navigate to `/signin` on 401/403.  The
`finally` block sets `loading := false` on every path. -/
def fetchCurrentUser (s : State) (res : ApiResult) (listRes : ApiResult) :
    State × List Effect :=
  match res with
  | .ok data =>
      let s1 : State := { s with user := some data }
      if data.getField "role" ≠ .str "Warden" then
        ({ s1 with loading := false }, [.apiCall .getCurrentUser, .navigate "/dashboard"])
      else
        let listed := fetchAllUsers s1 listRes
        ({ listed.1 with loading := false }, [.apiCall .getCurrentUser] ++ listed.2)
  | .err e =>
      ({ s with loading := false },
       [.apiCall .getCurrentUser, .consoleError "Error fetching user:"] ++
         (if e.isAuthFailure then [.navigate "/signin"] else []))

/-- `handleRoleChange` of the user-management page: unconditionally issues
the role update (body `{ role: newRole }`) and reloads the list on
success.  It receives only the target id — it never consults the current
user. -/
def handleRoleChange (s : State) (userId : JsVal) (newRole : String)
    (updRes : ApiResult) (listRes : ApiResult) : State × List Effect :=
  let body : JsVal := .obj (.cons "role" (.str newRole) .nil)
  match updRes with
  | .ok _ =>
      let listed := fetchAllUsers s listRes
      (listed.1,
       [.apiCall (.updateUser userId body),
        .toast "User role updated successfully!" "success"] ++ listed.2)
  | .err e =>
      (s, [.apiCall (.updateUser userId body),
           .toast ("Error updating role: " ++ e.errorOr "Unknown error") "error"])

/-- `handleDeleteUser` of the user-management page: returns early when the
confirm dialog is declined; otherwise issues the delete for whatever id it
was given — it never consults the current user. -/
def handleDeleteUser (s : State) (userId : JsVal) (confirmed : Bool)
    (delRes : ApiResult) (listRes : ApiResult) : State × List Effect :=
  let msg := "Are you sure you want to delete this user? This action cannot be undone."
  if !confirmed then
    (s, [.confirmDialog msg])
  else
    match delRes with
    | .ok _ =>
        let listed := fetchAllUsers s listRes
        (listed.1,
         [.confirmDialog msg, .apiCall (.deleteUser userId),
          .toast "User deleted successfully!" "success"] ++ listed.2)
    | .err e =>
        (s, [.confirmDialog msg, .apiCall (.deleteUser userId),
             .toast ("Error deleting user: " ++ e.errorOr "Unknown error") "error"])

/-- What the Role column of a table row renders. -/
inductive RoleCell where
  | badge (role : JsVal)
  | dropdown (role : JsVal)
deriving DecidableEq, Repr

/-- What the Actions column of a table row renders. -/
inductive ActionCell where
  | deleteButton (id : JsVal)
  | youLabel
deriving DecidableEq, Repr

/-- `user?.id`: the current identity's id, or `undefined` when no
identity is loaded. -/
def currentId (user : Option JsVal) : JsVal :=
  match user with
  | some cu => cu.getField "id"
  | none => .undefined

/-- One rendered table row of the user-management table. -/
structure RenderedRow where
  username : JsVal
  roleCell : RoleCell
  actionCell : ActionCell
deriving DecidableEq, Repr

/-- The JSX for one row of `allUsers.map(u => ...)`: a static badge and a
"You" label on the current user's own row, a role dropdown and a delete
button on every other row (`u.id === user?.id` decides, with `===` on the
primitive id values). -/
def renderRow (user : Option JsVal) (u : JsVal) : RenderedRow :=
  { username := u.getField "username"
    roleCell :=
      if u.getField "id" = currentId user then .badge (u.getField "role")
      else .dropdown (u.getField "role")
    actionCell :=
      if u.getField "id" ≠ currentId user then .deleteButton (u.getField "id")
      else .youLabel }

/-- The whole table body: one rendered row per element of `allUsers`. -/
def renderTable (user : Option JsVal) (us : JsArr) : List RenderedRow :=
  us.toList.map (renderRow user)

end UserManagement

namespace ForgotPassword

/-- State of the three-step password-reset page (`ForgotPassword`). -/
structure State where
  step : Nat
  email : String
  code : String
  newPassword : String
  confirmPassword : String
  loading : Bool
deriving DecidableEq, Repr

/-- Initial `useState` values: step 1, everything empty. -/
def initialState : State :=
  { step := 1, email := "", code := "", newPassword := "", confirmPassword := ""
    loading := false }

/-- `handleRequestCode`: requests the reset code for the entered email;
on success advances to step 2, on failure stays put; `finally` clears
`loading`. -/
def handleRequestCode (s : State) (res : ApiResult) : State × List Effect :=
  match res with
  | .ok _ =>
      ({ s with loading := false, step := 2 },
       [.apiCall (.requestPasswordReset s.email),
        .toast "Reset code sent to your email!" "success"])
  | .err e =>
      ({ s with loading := false },
       [.apiCall (.requestPasswordReset s.email),
        .toast (e.errorOr "Failed to send reset code") "error"])

/-- `handleVerifyCode`: verifies the entered code; on success advances to
step 3, on failure stays on step 2. -/
def handleVerifyCode (s : State) (res : ApiResult) : State × List Effect :=
  match res with
  | .ok _ =>
      ({ s with loading := false, step := 3 },
       [.apiCall (.verifyResetCode s.email s.code),
        .toast "Code verified! Enter your new password" "success"])
  | .err e =>
      ({ s with loading := false },
       [.apiCall (.verifyResetCode s.email s.code),
        .toast (e.errorOr "Invalid or expired code") "error"])

/-- `handleResetPassword`: rejects a mismatched confirmation or a password
shorter than 4 characters before any network call; otherwise issues the
reset call and on success schedules navigation to `/signin` after 2s. -/
def handleResetPassword (s : State) (res : ApiResult) : State × List Effect :=
  if s.newPassword ≠ s.confirmPassword then
    (s, [.toast "Passwords do not match" "error"])
  else if s.newPassword.length < 4 then
    (s, [.toast "Password must be at least 4 characters" "error"])
  else
    match res with
    | .ok _ =>
        ({ s with loading := false },
         [.apiCall (.resetPasswordWithCode s.email s.code s.newPassword),
          .toast "Password reset successfully! Redirecting to login..." "success",
          .navigateDelayed "/signin" 2000])
    | .err e =>
        ({ s with loading := false },
         [.apiCall (.resetPasswordWithCode s.email s.code s.newPassword),
          .toast (e.errorOr "Failed to reset password") "error"])

/-- A user interaction available on the page.  Submissions carry the
outcome of the network call the handler awaits. -/
inductive Event where
  | submitEmail (res : ApiResult)
  | submitCode (res : ApiResult)
  | clickChangeEmail
  | submitNewPassword (res : ApiResult)
  | typeEmail (v : String)
  | typeCode (v : String)
  | typeNewPassword (v : String)
  | typeConfirmPassword (v : String)
deriving DecidableEq, Repr

/-- Dispatch of one interaction, guarded by what the page renders: each
form (and the change-email button, each input) exists only at its step
(`step === 1 && <form onSubmit=handleRequestCode>`, etc.), so an event is
`none` when its control is not on screen. -/
def dispatch (s : State) (e : Event) : Option (State × List Effect) :=
  match e with
  | .submitEmail res => if s.step = 1 then some (handleRequestCode s res) else none
  | .submitCode res => if s.step = 2 then some (handleVerifyCode s res) else none
  | .clickChangeEmail => if s.step = 2 then some ({ s with step := 1 }, []) else none
  | .submitNewPassword res =>
      if s.step = 3 then some (handleResetPassword s res) else none
  | .typeEmail v => if s.step = 1 then some ({ s with email := v }, []) else none
  | .typeCode v => if s.step = 2 then some ({ s with code := v }, []) else none
  | .typeNewPassword v =>
      if s.step = 3 then some ({ s with newPassword := v }, []) else none
  | .typeConfirmPassword v =>
      if s.step = 3 then some ({ s with confirmPassword := v }, []) else none

/-- Run a sequence of interactions from a state; `none` if some event in
the sequence is not available when it occurs. -/
def run (s : State) : List Event → Option State
  | [] => some s
  | e :: es =>
      match dispatch s e with
      | some st => run st.1 es
      | none => none

end ForgotPassword

/-- Initial `useState` values of the dashboard page: zeroed summary
counters, no user, loading. -/
def Dashboard.initialState : Dashboard.State :=
  { summary := .obj (.cons "total_assets" (.num 0) (.cons "damage_reports" (.num 0)
      (.cons "total_rooms" (.num 0) (.cons "total_users" (.num 0) .nil))))
    user := none, loading := true }

/-- A 401 response with an empty body, as a mock transport yields it. -/
def err401 : FetchError := { response := some { status := 401, data := .null } }

/-- A damage-tracking state mid-use: room 1 selected, asset type Table,
a description typed. -/
def dtSubmitState : DamageTracking.State :=
  { rooms := .arr .nil, damageReports := .arr .nil, selectedRoom := "1"
    assetType := "Table", description := "broken leg", loading := false }

/-- A complete happy-path interaction sequence of the reset flow: type an
email, request the code successfully, type the code, verify successfully. -/
def resetTrace : List ForgotPassword.Event :=
  [.typeEmail "user@example.com", .submitEmail (.ok .null),
   .typeCode "123456", .submitCode (.ok .null)]

/-- The state the reset page reaches after `resetTrace`. -/
def resetTraceFinal : ForgotPassword.State :=
  { step := 3, email := "user@example.com", code := "123456", newPassword := ""
    confirmPassword := "", loading := false }

/-- A step-3 state whose confirmation does not match the new password. -/
def mismatchResetState : ForgotPassword.State :=
  { step := 3, email := "user@example.com", code := "123456"
    newPassword := "abcd", confirmPassword := "abce", loading := false }

/-- A step-3 state passing both client-side checks. -/
def validResetState : ForgotPassword.State :=
  { step := 3, email := "user@example.com", code := "123456"
    newPassword := "abcd", confirmPassword := "abcd", loading := false }

/-- A non-Warden identity object as `/users/me/` would return it. -/
def nonWardenIdentity : JsVal :=
  .obj (.cons "id" (.num 7) (.cons "role" (.str "Sub-Warden") .nil))

/-- A Warden identity object. -/
def wardenIdentity : JsVal :=
  .obj (.cons "id" (.num 1) (.cons "role" (.str "Warden") .nil))

/-- A user-list row whose id matches `wardenIdentity`. -/
def selfRow : JsVal :=
  .obj (.cons "id" (.num 1) (.cons "username" (.str "warden1")
    (.cons "role" (.str "Warden") .nil)))

/-- A user-list row with a different id. -/
def otherRow : JsVal :=
  .obj (.cons "id" (.num 2) (.cons "username" (.str "staff1")
    (.cons "role" (.str "Inventory Staff") .nil)))

/-- The user list containing both rows. -/
def umRows : JsArr := .cons selfRow (.cons otherRow .nil)

/-! ## Helper lemmas -/

/-- The `Array.isArray response.data ? response.data : []` guard always
produces an array value. -/
lemma isArr_guard (data : JsVal) :
    (if data.isArr then data else JsVal.arr .nil).isArr = true := by
  cases data <;> simp [JsVal.isArr]

/-- The effects of `fetchAllUsers` do not depend on the page state. -/
lemma fetchAllUsers_effects_const (s t : UserManagement.State) (res : ApiResult) :
    (UserManagement.fetchAllUsers s res).2 = (UserManagement.fetchAllUsers t res).2 := by
  cases res <;> rfl

/-- `handleResetPassword` never changes the step indicator. -/
lemma fp_resetPassword_keeps_step (s : ForgotPassword.State) (res : ApiResult) :
    (ForgotPassword.handleResetPassword s res).1.step = s.step := by
  simp only [ForgotPassword.handleResetPassword]
  split
  · rfl
  · split
    · rfl
    · cases res <;> rfl

/-- Case analysis of one dispatched interaction of the reset page: the
step either stays, or moves 1→2 on a successful request-code submission,
2→3 on a successful verify-code submission, or 2→1 on the change-email
button. -/
lemma fp_dispatch_step_cases (s : ForgotPassword.State) (e : ForgotPassword.Event)
    (s1 : ForgotPassword.State) (effs : List Effect)
    (h : ForgotPassword.dispatch s e = some (s1, effs)) :
    s1.step = s.step ∨
    (s.step = 1 ∧ s1.step = 2 ∧ ∃ d, e = .submitEmail (.ok d)) ∨
    (s.step = 2 ∧ s1.step = 3 ∧ ∃ d, e = .submitCode (.ok d)) ∨
    (s.step = 2 ∧ s1.step = 1 ∧ e = .clickChangeEmail) := by
  cases e with
  | submitEmail res =>
      by_cases hs : s.step = 1
      · simp only [ForgotPassword.dispatch, if_pos hs] at h
        injection h with hp
        obtain ⟨h1, -⟩ := Prod.ext_iff.mp hp
        subst h1
        cases res with
        | ok d => exact Or.inr (Or.inl ⟨hs, rfl, ⟨d, rfl⟩⟩)
        | err e2 => exact Or.inl rfl
      · simp only [ForgotPassword.dispatch, if_neg hs] at h
        exact Option.noConfusion h
  | submitCode res =>
      by_cases hs : s.step = 2
      · simp only [ForgotPassword.dispatch, if_pos hs] at h
        injection h with hp
        obtain ⟨h1, -⟩ := Prod.ext_iff.mp hp
        subst h1
        cases res with
        | ok d => exact Or.inr (Or.inr (Or.inl ⟨hs, rfl, ⟨d, rfl⟩⟩))
        | err e2 => exact Or.inl rfl
      · simp only [ForgotPassword.dispatch, if_neg hs] at h
        exact Option.noConfusion h
  | clickChangeEmail =>
      by_cases hs : s.step = 2
      · simp only [ForgotPassword.dispatch, if_pos hs] at h
        injection h with hp
        obtain ⟨h1, -⟩ := Prod.ext_iff.mp hp
        subst h1
        exact Or.inr (Or.inr (Or.inr ⟨hs, rfl, rfl⟩))
      · simp only [ForgotPassword.dispatch, if_neg hs] at h
        exact Option.noConfusion h
  | submitNewPassword res =>
      by_cases hs : s.step = 3
      · simp only [ForgotPassword.dispatch, if_pos hs] at h
        injection h with hp
        obtain ⟨h1, -⟩ := Prod.ext_iff.mp hp
        subst h1
        exact Or.inl (fp_resetPassword_keeps_step s res)
      · simp only [ForgotPassword.dispatch, if_neg hs] at h
        exact Option.noConfusion h
  | typeEmail v =>
      by_cases hs : s.step = 1
      · simp only [ForgotPassword.dispatch, if_pos hs] at h
        injection h with hp
        obtain ⟨h1, -⟩ := Prod.ext_iff.mp hp
        subst h1
        exact Or.inl rfl
      · simp only [ForgotPassword.dispatch, if_neg hs] at h
        exact Option.noConfusion h
  | typeCode v =>
      by_cases hs : s.step = 2
      · simp only [ForgotPassword.dispatch, if_pos hs] at h
        injection h with hp
        obtain ⟨h1, -⟩ := Prod.ext_iff.mp hp
        subst h1
        exact Or.inl rfl
      · simp only [ForgotPassword.dispatch, if_neg hs] at h
        exact Option.noConfusion h
  | typeNewPassword v =>
      by_cases hs : s.step = 3
      · simp only [ForgotPassword.dispatch, if_pos hs] at h
        injection h with hp
        obtain ⟨h1, -⟩ := Prod.ext_iff.mp hp
        subst h1
        exact Or.inl rfl
      · simp only [ForgotPassword.dispatch, if_neg hs] at h
        exact Option.noConfusion h
  | typeConfirmPassword v =>
      by_cases hs : s.step = 3
      · simp only [ForgotPassword.dispatch, if_pos hs] at h
        injection h with hp
        obtain ⟨h1, -⟩ := Prod.ext_iff.mp hp
        subst h1
        exact Or.inl rfl
      · simp only [ForgotPassword.dispatch, if_neg hs] at h
        exact Option.noConfusion h

/-- Along any interaction sequence of the reset page that ends on step 3,
either it already started on step 3 or it contains a successful
verify-code submission. -/
lemma fp_run_step3_requires_verify :
    ∀ (tr : List ForgotPassword.Event) (s sf : ForgotPassword.State),
      ForgotPassword.run s tr = some sf → sf.step = 3 →
      s.step = 3 ∨ ∃ d, ForgotPassword.Event.submitCode (ApiResult.ok d) ∈ tr := by
  intro tr
  induction tr with
  | nil =>
      intro s sf h h3
      obtain rfl : s = sf := Option.some.inj h
      exact Or.inl h3
  | cons e es ih =>
      intro s sf h h3
      cases hd : ForgotPassword.dispatch s e with
      | none =>
          simp only [ForgotPassword.run, hd] at h
          exact Option.noConfusion h
      | some st =>
          have hrun : ForgotPassword.run st.1 es = some sf := by
            simpa only [ForgotPassword.run, hd] using h
          rcases ih st.1 sf hrun h3 with h1 | ⟨d, hdm⟩
          · obtain ⟨s1, effs⟩ := st
            rcases fp_dispatch_step_cases s e s1 effs hd with
              hk | ⟨hs, h2, d, rfl⟩ | ⟨hs, h2, d, rfl⟩ | ⟨hs, h2, hce⟩
            · exact Or.inl (by rw [← hk]; exact h1)
            · rw [h2] at h1
              exact absurd h1 (by decide)
            · exact Or.inr ⟨d, List.mem_cons_self _ _⟩
            · rw [h2] at h1
              exact absurd h1 (by decide)
          · exact Or.inr ⟨d, List.mem_cons_of_mem _ hdm⟩

/-! ## Claim theorems -/

/-- Claim C1 (corrected), counterexample to the original statement: for
the damage-report controller a fully successful submit (the create call is
issued and the success toast shown) leaves the selected room and asset
type at their user-chosen values, not at the defaults (selected room
default is the empty string, asset type default is Bed). -/
theorem c1_submit_counterexample :
    Effect.apiCall (.createDamageReport "1" "Table" "broken leg") ∈
      (DamageTracking.handleSubmit dtSubmitState (.ok .null) (.ok (.arr .nil))).2 ∧
    Effect.toast "Damage report added successfully!" "success" ∈
      (DamageTracking.handleSubmit dtSubmitState (.ok .null) (.ok (.arr .nil))).2 ∧
    (DamageTracking.handleSubmit dtSubmitState (.ok .null) (.ok (.arr .nil))).1.selectedRoom
      = "1" ∧
    (DamageTracking.handleSubmit dtSubmitState (.ok .null) (.ok (.arr .nil))).1.assetType
      = "Table" ∧
    DamageTracking.initialState.selectedRoom = "" ∧
    DamageTracking.initialState.assetType = "Bed" := by
  decide

/-- Claim C1 (corrected, amended): after a successful `submit()` the rooms
and assets controllers hide the form, clear the editing target, restore
the default form fields and hold the reloaded server list; the
damage-report controller (which has no form-visibility or editing-target
state) clears only the description, keeps the selected room and asset
type, and holds the reloaded server list. -/
theorem c1_submit_success_amended :
    ∀ (sr : UseRooms.State) (sa : UseAssets.State) (sd : DamageTracking.State)
      (d1 d2 d3 : JsVal) (xs ys zs : JsArr),
      ((UseRooms.handleSubmit sr (.ok d1) (.ok (.arr xs))).1 =
         { sr with showForm := false, editingRoom := none,
                   formData := UseRooms.defaultFormData, rooms := .arr xs,
                   loading := false } ∧
       Effect.apiCall .getRooms ∈ (UseRooms.handleSubmit sr (.ok d1) (.ok (.arr xs))).2) ∧
      ((UseAssets.handleSubmit sa (.ok d2) (.ok (.arr ys))).1 =
         { sa with showForm := false, editingAsset := none,
                   formData := UseAssets.defaultFormData, assets := .arr ys,
                   loading := false } ∧
       Effect.apiCall .getAssets ∈ (UseAssets.handleSubmit sa (.ok d2) (.ok (.arr ys))).2) ∧
      (sd.selectedRoom ≠ "" → jsTrim sd.description ≠ "" →
       (DamageTracking.handleSubmit sd (.ok d3) (.ok (.arr zs))).1 =
         { sd with description := "", damageReports := .arr zs } ∧
       Effect.apiCall .getDamageReports ∈
         (DamageTracking.handleSubmit sd (.ok d3) (.ok (.arr zs))).2) := by
  intro sr sa sd d1 d2 d3 xs ys zs
  refine ⟨⟨rfl, ?_⟩, ⟨rfl, ?_⟩, ?_⟩
  · simp [UseRooms.handleSubmit, UseRooms.fetchRooms]
  · simp [UseAssets.handleSubmit, UseAssets.fetchAssets]
  · intro h1 h2
    constructor
    · simp [DamageTracking.handleSubmit, DamageTracking.fetchDamageReports, h1, h2,
            JsVal.isArr]
    · simp [DamageTracking.handleSubmit, DamageTracking.fetchDamageReports, h1, h2,
            JsVal.isArr]

/-- Claim C1 witness: the amended theorem applied to `dtSubmitState`. -/
theorem c1_submit_success_witness :
    dtSubmitState.selectedRoom ≠ "" ∧ jsTrim dtSubmitState.description ≠ "" ∧
    (DamageTracking.handleSubmit dtSubmitState (.ok .null) (.ok (.arr .nil))).1 =
      { dtSubmitState with description := "", damageReports := .arr .nil } :=
  ⟨by decide, by decide,
   ((c1_submit_success_amended UseRooms.initialState UseAssets.initialState dtSubmitState
       .null .null .null .nil .nil .nil).2.2 (by decide) (by decide)).1⟩

/-- Claim C2 (corrected), counterexample to the original statement: a 401
from the damage-report list fetch produces only the API call and a console
log — no navigation to the sign-in screen. -/
theorem c2_auth_redirect_counterexample :
    (DamageTracking.fetchDamageReports DamageTracking.initialState (.err err401)).2 =
      [.apiCall .getDamageReports, .consoleError "Error fetching damage reports:"] ∧
    Effect.navigate "/signin" ∉
      (DamageTracking.fetchDamageReports DamageTracking.initialState (.err err401)).2 := by
  exact ⟨rfl, by decide⟩

/-- Claim C2 (corrected, amended): a 401/403 response redirects to the
sign-in screen for the room-list fetch, the asset-list fetch, the
damage-tracking page room fetch, the dashboard-summary fetch, the profile
page identity fetch and the user-management identity fetch; the
damage-report list fetch, the dashboard identity fetch and the user-list
fetch never navigate on any error. -/
theorem c2_auth_redirect_amended :
    ∀ (sr : UseRooms.State) (sa : UseAssets.State) (sd : DamageTracking.State)
      (sb : Dashboard.State) (sp : Profile.State) (su : UserManagement.State)
      (ht : Bool) (e : FetchError) (listRes : ApiResult),
      e.isAuthFailure = true →
      Effect.navigate "/signin" ∈ (UseRooms.fetchRooms sr (.err e)).2 ∧
      Effect.navigate "/signin" ∈ (UseAssets.fetchAssets sa ht (.err e)).2 ∧
      Effect.navigate "/signin" ∈ (DamageTracking.fetchRooms sd (.err e)).2 ∧
      Effect.navigate "/signin" ∈ (Dashboard.fetchDashboardData sb (.err e)).2 ∧
      Effect.navigate "/signin" ∈ (Profile.fetchCurrentUser sp (.err e)).2 ∧
      Effect.navigate "/signin" ∈ (UserManagement.fetchCurrentUser su (.err e) listRes).2 ∧
      (∀ p, Effect.navigate p ∉ (DamageTracking.fetchDamageReports sd (.err e)).2) ∧
      (∀ p, Effect.navigate p ∉ (Dashboard.fetchCurrentUser sb (.err e)).2) ∧
      (∀ p, Effect.navigate p ∉ (UserManagement.fetchAllUsers su (.err e)).2) := by
  intro sr sa sd sb sp su ht e listRes hAuth
  refine ⟨?_, ?_, ?_, ?_, ?_, ?_, ?_, ?_, ?_⟩
  · simp [UseRooms.fetchRooms, hAuth]
  · simp [UseAssets.fetchAssets, hAuth]
  · simp [DamageTracking.fetchRooms, hAuth]
  · simp [Dashboard.fetchDashboardData, hAuth]
  · simp [Profile.fetchCurrentUser, hAuth]
  · simp [UserManagement.fetchCurrentUser, hAuth]
  · intro p
    simp [DamageTracking.fetchDamageReports]
  · intro p
    simp [Dashboard.fetchCurrentUser]
  · intro p
    simp [UserManagement.fetchAllUsers]

/-- Claim C2 witness: the amended theorem applied to a concrete 401. -/
theorem c2_auth_redirect_witness :
    err401.isAuthFailure = true ∧
    Effect.navigate "/signin" ∈
      (UseRooms.fetchRooms UseRooms.initialState (.err err401)).2 :=
  ⟨by decide,
   (c2_auth_redirect_amended UseRooms.initialState UseAssets.initialState
      DamageTracking.initialState Dashboard.initialState Profile.initialState
      UserManagement.initialState false err401 (.ok .null) (by decide)).1⟩

/-- Claim C3 (confirmed): on the reset page, a dispatched interaction
moves the step only identically, 1→2 on a successful request-code
submission, 2→3 on a successful verify-code submission, or 2→1 on the
change-email button; consequently any interaction sequence from the
initial state that ends on step 3 contains a successful verify-code
submission. -/
theorem c3_reset_flow_ordering :
    (∀ (s : ForgotPassword.State) (e : ForgotPassword.Event)
       (s1 : ForgotPassword.State) (effs : List Effect),
       ForgotPassword.dispatch s e = some (s1, effs) →
       s1.step = s.step ∨
       (s.step = 1 ∧ s1.step = 2 ∧ ∃ d, e = .submitEmail (.ok d)) ∨
       (s.step = 2 ∧ s1.step = 3 ∧ ∃ d, e = .submitCode (.ok d)) ∨
       (s.step = 2 ∧ s1.step = 1 ∧ e = .clickChangeEmail)) ∧
    (∀ (tr : List ForgotPassword.Event) (sf : ForgotPassword.State),
       ForgotPassword.run ForgotPassword.initialState tr = some sf → sf.step = 3 →
       ∃ d, ForgotPassword.Event.submitCode (ApiResult.ok d) ∈ tr) := by
  constructor
  · exact fp_dispatch_step_cases
  · intro tr sf h h3
    rcases fp_run_step3_requires_verify tr ForgotPassword.initialState sf h h3 with h1 | h2
    · exact absurd h1 (by decide)
    · exact h2

/-- Claim C3 witness: the reachability part applied to the happy-path
trace. -/
theorem c3_reset_flow_witness :
    ForgotPassword.run ForgotPassword.initialState resetTrace = some resetTraceFinal ∧
    resetTraceFinal.step = 3 ∧
    ∃ d, ForgotPassword.Event.submitCode (ApiResult.ok d) ∈ resetTrace :=
  ⟨by decide, by decide,
   c3_reset_flow_ordering.2 resetTrace resetTraceFinal (by decide) (by decide)⟩

/-- Claim C4 (confirmed): on the user-management page, a fetched identity
whose role is not Warden produces exactly the identity call and a redirect
to the dashboard — in particular the user list is never requested; a
Warden identity triggers the user-list fetch and no dashboard redirect. -/
theorem c4_warden_gate :
    ∀ (d : JsVal) (su : UserManagement.State) (listRes : ApiResult),
      (d.getField "role" ≠ .str "Warden" →
        (UserManagement.fetchCurrentUser su (.ok d) listRes).2 =
          [.apiCall .getCurrentUser, .navigate "/dashboard"]) ∧
      (d.getField "role" = .str "Warden" →
        Effect.apiCall .listUsers ∈ (UserManagement.fetchCurrentUser su (.ok d) listRes).2 ∧
        Effect.navigate "/dashboard" ∉
          (UserManagement.fetchCurrentUser su (.ok d) listRes).2) := by
  intro d su listRes
  constructor
  · intro h
    simp [UserManagement.fetchCurrentUser, h]
  · intro h
    constructor
    · cases listRes <;>
        simp [UserManagement.fetchCurrentUser, UserManagement.fetchAllUsers, h]
    · cases listRes <;>
        simp [UserManagement.fetchCurrentUser, UserManagement.fetchAllUsers, h]

/-- Claim C4 witness: the gate applied to a Sub-Warden identity and to a
Warden identity. -/
theorem c4_warden_gate_witness :
    nonWardenIdentity.getField "role" ≠ JsVal.str "Warden" ∧
    (UserManagement.fetchCurrentUser UserManagement.initialState
        (.ok nonWardenIdentity) (.ok .null)).2 =
      [.apiCall .getCurrentUser, .navigate "/dashboard"] ∧
    Effect.apiCall .listUsers ∈
      (UserManagement.fetchCurrentUser UserManagement.initialState
        (.ok wardenIdentity) (.ok (.arr .nil))).2 :=
  ⟨by decide,
   (c4_warden_gate nonWardenIdentity UserManagement.initialState (.ok .null)).1
     (by decide),
   ((c4_warden_gate wardenIdentity UserManagement.initialState (.ok (.arr .nil))).2
     (by decide)).1⟩

/-- Claim C5 (confirmed): in the rendered user-management table, the row
whose id equals the current identity id shows a static role badge and the
You label (no delete control); every other row shows the role dropdown and
a delete button for that id. -/
theorem c5_self_row_rendering :
    ∀ (user : Option JsVal) (us : JsArr) (u : JsVal),
      u ∈ us.toList →
      UserManagement.renderRow user u ∈ UserManagement.renderTable user us ∧
      (u.getField "id" = UserManagement.currentId user →
        (UserManagement.renderRow user u).roleCell = .badge (u.getField "role") ∧
        (UserManagement.renderRow user u).actionCell = .youLabel) ∧
      (u.getField "id" ≠ UserManagement.currentId user →
        (UserManagement.renderRow user u).roleCell = .dropdown (u.getField "role") ∧
        (UserManagement.renderRow user u).actionCell = .deleteButton (u.getField "id")) := by
  intro user us u hmem
  refine ⟨List.mem_map_of_mem _ hmem, fun h => ⟨?_, ?_⟩, fun h => ⟨?_, ?_⟩⟩ <;>
    simp [UserManagement.renderRow, h]

/-- Claim C5 witness: the rendering invariant applied to a two-row list
viewed by the first row's user. -/
theorem c5_self_row_witness :
    selfRow ∈ umRows.toList ∧
    (UserManagement.renderRow (some selfRow) selfRow).roleCell =
      .badge (.str "Warden") ∧
    (UserManagement.renderRow (some selfRow) selfRow).actionCell = .youLabel ∧
    (UserManagement.renderRow (some selfRow) otherRow).actionCell =
      .deleteButton (.num 2) :=
  ⟨by decide,
   ((c5_self_row_rendering (some selfRow) umRows selfRow (by decide)).2.1 (by decide)).1,
   ((c5_self_row_rendering (some selfRow) umRows selfRow (by decide)).2.1 (by decide)).2,
   ((c5_self_row_rendering (some selfRow) umRows otherRow (by decide)).2.2 (by decide)).2⟩

/-- Claim C6 (confirmed): submitting step 3 with a mismatched confirmation
or a too-short password changes nothing and shows only an error toast (in
particular no API call is issued); the reset call is issued exactly when
both client-side checks pass. -/
theorem c6_step3_validation :
    ∀ (s : ForgotPassword.State) (res : ApiResult),
      (s.newPassword ≠ s.confirmPassword →
        ForgotPassword.handleResetPassword s res =
          (s, [.toast "Passwords do not match" "error"])) ∧
      (s.newPassword = s.confirmPassword → s.newPassword.length < 4 →
        ForgotPassword.handleResetPassword s res =
          (s, [.toast "Password must be at least 4 characters" "error"])) ∧
      (s.newPassword = s.confirmPassword → 4 ≤ s.newPassword.length →
        Effect.apiCall (.resetPasswordWithCode s.email s.code s.newPassword) ∈
          (ForgotPassword.handleResetPassword s res).2) ∧
      (∀ c, Effect.apiCall c ∈ (ForgotPassword.handleResetPassword s res).2 →
        s.newPassword = s.confirmPassword ∧ 4 ≤ s.newPassword.length) := by
  intro s res
  refine ⟨?_, ?_, ?_, ?_⟩
  · intro h
    simp [ForgotPassword.handleResetPassword, h]
  · intro h hlen
    have hlen2 : s.confirmPassword.length < 4 := h ▸ hlen
    simp [ForgotPassword.handleResetPassword, h, hlen2]
  · intro h hlen
    have hnl : ¬ s.confirmPassword.length < 4 := by
      rw [← h]
      exact Nat.not_lt.mpr hlen
    cases res <;> simp [ForgotPassword.handleResetPassword, h, hnl]
  · intro c hc
    by_cases h1 : s.newPassword = s.confirmPassword
    · by_cases h2 : s.newPassword.length < 4
      · have h2b : s.confirmPassword.length < 4 := h1 ▸ h2
        simp [ForgotPassword.handleResetPassword, h1, h2b] at hc
      · exact ⟨h1, Nat.le_of_not_lt h2⟩
    · simp [ForgotPassword.handleResetPassword, h1] at hc

/-- Claim C6 witness: the validation rules applied to a mismatched state
and to a valid state. -/
theorem c6_step3_validation_witness :
    mismatchResetState.newPassword ≠ mismatchResetState.confirmPassword ∧
    ForgotPassword.handleResetPassword mismatchResetState (.ok .null) =
      (mismatchResetState, [.toast "Passwords do not match" "error"]) ∧
    Effect.apiCall (.resetPasswordWithCode "user@example.com" "123456" "abcd") ∈
      (ForgotPassword.handleResetPassword validResetState (.ok .null)).2 :=
  ⟨by decide,
   (c6_step3_validation mismatchResetState (.ok .null)).1 (by decide),
   (c6_step3_validation validResetState (.ok .null)).2.2.1 (by decide) (by decide)⟩

/-- Claim C7 (confirmed): when the confirmation dialog is declined, every
resource controller's delete handler performs nothing beyond showing the
dialog — no API call of any kind, and the state (the displayed list
included) is returned unchanged. -/
theorem c7_remove_declined_noop :
    ∀ (sr : UseRooms.State) (sa : UseAssets.State) (sd : DamageTracking.State)
      (id rid : JsVal) (roomNo assetTy : String) (delRes reloadRes : ApiResult),
      UseRooms.handleDelete sr id false delRes reloadRes =
        (sr, [.confirmDialog "Are you sure you want to delete this room?"]) ∧
      UseAssets.handleDelete sa id false delRes reloadRes =
        (sa, [.confirmDialog "Are you sure you want to delete this asset?"]) ∧
      DamageTracking.handleDelete sd rid roomNo assetTy false delRes reloadRes =
        (sd, [.confirmDialog
          ("Delete damage report for " ++ assetTy ++ " in Room " ++ roomNo ++ "?")]) := by
  intro sr sa sd id rid roomNo assetTy delRes reloadRes
  exact ⟨rfl, rfl, rfl⟩

/-- Claim C8 (confirmed): `handleCancel` of the rooms and assets
controllers issues no effect at all and restores the concrete default form
values (rooms: empty strings with capacity 2; assets: empty name, type
Bed, quantity 1, condition Good), clears the editing target and hides the
form, leaving everything else untouched. -/
theorem c8_cancel_resets_silently :
    ∀ (sr : UseRooms.State) (sa : UseAssets.State),
      UseRooms.handleCancel sr =
        ({ sr with showForm := false, editingRoom := none,
                   formData := { room_number := .str "", hostel_name := .str "",
                                 floor := .str "", capacity := .num 2 } }, []) ∧
      UseAssets.handleCancel sa =
        ({ sa with showForm := false, editingAsset := none,
                   formData := { name := .str "", asset_type := .str "Bed",
                                 total_quantity := .num 1,
                                 condition := .str "Good" } }, []) := by
  intro sr sa
  exact ⟨rfl, rfl⟩

/-- Claim C9 (confirmed): the user-management write handlers contain no
self-check: `handleRoleChange` always begins by issuing the role update
for the given id, `handleDeleteUser` issues the delete for any given id
once confirmed, and the effects of both are identical across arbitrary
page states — in particular they do not depend on the current identity. -/
theorem c9_handlers_no_self_check :
    ∀ (s t : UserManagement.State) (userId : JsVal) (newRole : String)
      (confirmed : Bool) (updRes delRes listRes : ApiResult),
      (UserManagement.handleRoleChange s userId newRole updRes listRes).2.head? =
        some (.apiCall (.updateUser userId (.obj (.cons "role" (.str newRole) .nil)))) ∧
      (UserManagement.handleRoleChange s userId newRole updRes listRes).2 =
        (UserManagement.handleRoleChange t userId newRole updRes listRes).2 ∧
      Effect.apiCall (.deleteUser userId) ∈
        (UserManagement.handleDeleteUser s userId true delRes listRes).2 ∧
      (UserManagement.handleDeleteUser s userId confirmed delRes listRes).2 =
        (UserManagement.handleDeleteUser t userId confirmed delRes listRes).2 := by
  intro s t userId newRole confirmed updRes delRes listRes
  refine ⟨?_, ?_, ?_, ?_⟩
  · cases updRes <;> rfl
  · cases updRes <;> cases listRes <;> rfl
  · cases delRes <;> cases listRes <;>
      simp [UserManagement.handleDeleteUser, UserManagement.fetchAllUsers]
  · cases confirmed <;> cases delRes <;> cases listRes <;> rfl

/-- Claim C10 (confirmed): after any fetch completes, the list-holding
states of the resource controllers hold an array value, never anything
else; in particular a successful response whose body is not an array and
every fetch error both store the empty list. -/
theorem c10_lists_always_arrays :
    ∀ (sr : UseRooms.State) (sa : UseAssets.State) (sd : DamageTracking.State)
      (ht : Bool) (res : ApiResult) (d : JsVal) (e : FetchError),
      ((UseRooms.fetchRooms sr res).1.rooms.isArr = true ∧
       (UseAssets.fetchAssets sa ht res).1.assets.isArr = true ∧
       (DamageTracking.fetchRooms sd res).1.rooms.isArr = true ∧
       (DamageTracking.fetchDamageReports sd res).1.damageReports.isArr = true) ∧
      (d.isArr = false →
       (UseRooms.fetchRooms sr (.ok d)).1.rooms = .arr .nil ∧
       (UseAssets.fetchAssets sa ht (.ok d)).1.assets = .arr .nil ∧
       (DamageTracking.fetchRooms sd (.ok d)).1.rooms = .arr .nil ∧
       (DamageTracking.fetchDamageReports sd (.ok d)).1.damageReports = .arr .nil) ∧
      ((UseRooms.fetchRooms sr (.err e)).1.rooms = .arr .nil ∧
       (UseAssets.fetchAssets sa ht (.err e)).1.assets = .arr .nil ∧
       (DamageTracking.fetchRooms sd (.err e)).1.rooms = .arr .nil ∧
       (DamageTracking.fetchDamageReports sd (.err e)).1.damageReports = .arr .nil) := by
  intro sr sa sd ht res d e
  refine ⟨?_, fun hd => ?_, ⟨rfl, rfl, rfl, rfl⟩⟩
  · cases res with
    | ok data =>
        refine ⟨?_, ?_, ?_, ?_⟩ <;>
          simpa [UseRooms.fetchRooms, UseAssets.fetchAssets, DamageTracking.fetchRooms,
                 DamageTracking.fetchDamageReports] using isArr_guard data
    | err e2 =>
        exact ⟨rfl, rfl, rfl, rfl⟩
  · refine ⟨?_, ?_, ?_, ?_⟩ <;>
      simp [UseRooms.fetchRooms, UseAssets.fetchAssets, DamageTracking.fetchRooms,
            DamageTracking.fetchDamageReports, hd]
